import Mathlib

/-! # FlowForge workflow builder: canvas state and execution step

A shallow embedding of `src/src/WorkflowBuilder.jsx`.  The React component
`WorkflowBuilder` keeps eight pieces of state (`useState`) and defines the
handlers `addNode`, `updateNodePosition`, `updateNodeData`, `startConnection`,
`endConnection`, the mouse-move effect and `executeWorkflow`.  Each handler is
embedded as a function from the state before the event to the state after it.

Conventions of the embedding:

* a JavaScript value is a `JSValue`; finite numbers are rationals, `NaN` is a
  separate constructor (it is what `parseInt` and `parseFloat` give on an empty
  field);
* a JavaScript object used as a mapping (`node.data`) is its list of
  properties in insertion order;
* `Date.now()` is an argument of `addNode`;
* `fetch` is an argument of `executeWorkflow`: a function from the request to
  what the network gives back, and `executeWorkflow` also returns the list of
  requests it issued;
* the rendering of a number inside a template literal is the argument `fmt`
  (it only matters when `apiBase` or `apiKey` holds a number);
* `executeWorkflow` is the handler run without interruption: the answer of
  `fetch` is there before any other event.  The handler is `async`, so in a
  session (`step`) a click on Run and the settling of its request are two
  events: `executeStart` is the handler up to `await fetch(...)`, and
  `executeSettle` is the rest of it, which works on the node list that the
  handler captured when Run was clicked.  Between the two awaits (`fetch` and
  `response.json()`) the handler reads and writes no state, so one settling
  event, placed where the handler writes, stands for both.
-/

namespace WorkflowBuilder

/-! ## JavaScript values and objects -/

/-- The JavaScript values that node data and API responses hold. -/
inductive JSValue where
  | undefined
  | null
  | bool (b : Bool)
  | num (q : ℚ)
  | nan
  | str (s : String)
  deriving DecidableEq

/-- JavaScript truthiness (`ToBoolean`): `undefined`, `null`, `false`, `0`,
`NaN` and `''` are falsy, everything else is truthy. -/
def JSValue.truthy : JSValue → Bool
  | .undefined => false
  | .null => false
  | .bool b => b
  | .num q => decide (q ≠ 0)
  | .nan => false
  | .str s => decide (s ≠ "")

/-- The JavaScript operator `a || b`. -/
def JSValue.or (a b : JSValue) : JSValue :=
  if a.truthy then a else b

/-- The string a value becomes inside a template literal (`ToString`). -/
def JSValue.toTemplate (fmt : ℚ → String) : JSValue → String
  | .undefined => "undefined"
  | .null => "null"
  | .bool true => "true"
  | .bool false => "false"
  | .num q => fmt q
  | .nan => "NaN"
  | .str s => s

/-- A plain object used as a mapping: its properties in insertion order. -/
abbrev Data := List (String × JSValue)

/-- The property `k` of an object, `none` when the object has no such key. -/
def Data.lookup : Data → String → Option JSValue
  | [], _ => none
  | (k', v) :: rest, k => if k' = k then some v else Data.lookup rest k

/-- Property access `d.k`: `undefined` when the key is absent. -/
def Data.get (d : Data) (k : String) : JSValue :=
  (Data.lookup d k).getD JSValue.undefined

/-- Assignment of one property while building an object: an existing key
keeps its place and takes the new value, a new key goes to the end. -/
def Data.set : Data → String → JSValue → Data
  | [], k, v => [(k, v)]
  | (k', v') :: rest, k, v =>
    if k' = k then (k', v) :: rest else (k', v') :: Data.set rest k v

/-- The object literal `{ ...d, ...e }`. -/
def Data.spread (d e : Data) : Data :=
  e.foldl (fun acc kv => Data.set acc kv.1 kv.2) d

/-! ## Nodes, connections, state -/

/-- The constant `NodeTypes`. -/
inductive NodeType where
  | INPUT
  | LLM
  | OUTPUT
  deriving DecidableEq

/-- The string value of each member of `NodeTypes`. -/
def NodeType.toString : NodeType → String
  | .INPUT => "input"
  | .LLM => "llm"
  | .OUTPUT => "output"

/-- A position `{ x, y }` on the canvas, in whole pixels. -/
structure Position where
  x : Int
  y : Int
  deriving DecidableEq

/-- A node of the canvas. -/
structure Node where
  id : String
  type : NodeType
  position : Position
  data : Data
  deriving DecidableEq

/-- A connection; `source` is the value of `connectionStart` when the
connection was made (`none` is JavaScript `null`). -/
structure Connection where
  source : Option String
  target : String
  deriving DecidableEq

/-- The guide line drawn while a connection is in progress. -/
structure TempLine where
  x1 : Int
  y1 : Int
  x2 : Int
  y2 : Int
  deriving DecidableEq

/-- The state of the component `WorkflowBuilder`. -/
structure State where
  nodes : List Node
  connections : List Connection
  error : String
  errorType : String
  isConnecting : Bool
  connectionStart : Option String
  showAlert : Bool
  tempLine : Option TempLine
  deriving DecidableEq

/-- The initial values given to `useState`. -/
def State.init : State :=
  { nodes := [], connections := [], error := "", errorType := "",
    isConnecting := false, connectionStart := none, showAlert := false,
    tempLine := none }

/-! ## Canvas operations -/

/-- The default data of a node of type `type` in `addNode`. -/
def defaultData (type : NodeType) : Data :=
  if type = NodeType.LLM then
    [("model", JSValue.str "gpt-3.5-turbo"),
     ("maxTokens", JSValue.num 2000),
     ("temperature", JSValue.num 0.5),
     ("apiBase", JSValue.str "https://api.openai.com/v1")]
  else []

/-- The id built in `addNode`, with `now` the value of `Date.now()`. -/
def newId (type : NodeType) (now : Nat) : String :=
  type.toString ++ "-" ++ Nat.repr now

/-- The handler `addNode(type)`, with `now` the value of `Date.now()`. -/
def addNode (now : Nat) (type : NodeType) (st : State) : State :=
  let newNode : Node :=
    { id := newId type now,
      type := type,
      position := { x := 300, y := 100 },
      data := defaultData type }
  { st with nodes := st.nodes ++ [newNode] }

/-- The handler `updateNodePosition(nodeId, newPosition)`. -/
def updateNodePosition (nodeId : String) (newPosition : Position) (st : State) : State :=
  { st with nodes := st.nodes.map (fun node =>
      if node.id = nodeId then { node with position := newPosition } else node) }

/-- The handler `updateNodeData(nodeId, newData)`. -/
def updateNodeData (nodeId : String) (newData : Data) (st : State) : State :=
  { st with
    nodes := st.nodes.map (fun node =>
      if node.id = nodeId then { node with data := Data.spread node.data newData } else node),
    error := "",
    errorType := "",
    showAlert := false }

/-- The handler `startConnection(nodeId)`. -/
def startConnection (nodeId : String) (st : State) : State :=
  { st with isConnecting := true, connectionStart := some nodeId }

/-- The handler `endConnection(nodeId)`. -/
def endConnection (nodeId : String) (st : State) : State :=
  let connections :=
    if st.isConnecting = true ∧ st.connectionStart ≠ some nodeId then
      st.connections ++ [{ source := st.connectionStart, target := nodeId }]
    else st.connections
  { st with connections := connections, isConnecting := false,
            connectionStart := none, tempLine := none }

/-- The listener `handleMouseMove` of the effect, for a pointer at
`(clientX, clientY)`; the listener is installed only while connecting. -/
def handleMouseMove (clientX clientY : Int) (st : State) : State :=
  if st.isConnecting = true then
    match st.nodes.find? (fun n => decide (some n.id = st.connectionStart)) with
    | some sourceNode =>
      let line : TempLine :=
        { x1 := sourceNode.position.x + 320, y1 := sourceNode.position.y + 40,
          x2 := clientX - 72, y2 := clientY - 56 }
      { st with tempLine := some line }
    | none => st
  else st

/-- The `onClose` handler of the alert. -/
def closeAlert (st : State) : State :=
  { st with showAlert := false }

/-! ## The execution step -/

/-- One entry of the `messages` array of the request body. -/
structure Message where
  role : String
  content : JSValue
  deriving DecidableEq

/-- The object passed to `JSON.stringify` as the request body. -/
structure RequestBody where
  model : JSValue
  messages : List Message
  max_tokens : JSValue
  temperature : JSValue
  deriving DecidableEq

/-- The arguments of the call to `fetch`. -/
structure Request where
  url : String
  method : String
  headers : List (String × String)
  body : RequestBody
  deriving DecidableEq

/-- What `await response.json()` followed by `data.choices[0].message.content`
gives: either something is thrown (malformed JSON, a missing `choices[0]` or
`message`), or the content is read. -/
inductive JsonResult where
  | throws (message : String)
  | content (output : JSValue)
  deriving DecidableEq

/-- What `await fetch(...)` gives: the promise rejects (a transport failure),
or there is a response with its `ok` flag and its body. -/
inductive FetchResult where
  | rejects (message : String)
  | response (ok : Bool) (json : JsonResult)
  deriving DecidableEq

/-- The expression `node?.data.k` for the result `node` of `nodes.find`. -/
def optField (node : Option Node) (k : String) : JSValue :=
  match node with
  | none => JSValue.undefined
  | some n => n.data.get k

/-- The request built at lines 336 to 349 from the Input node and the Model
node. -/
def buildRequest (fmt : ℚ → String) (inputNode llmNode : Node) : Request :=
  let apiBase := (llmNode.data.get "apiBase").or (JSValue.str "https://api.openai.com/v1")
  { url := apiBase.toTemplate fmt ++ "/chat/completions",
    method := "POST",
    headers :=
      [("Content-Type", "application/json"),
       ("Authorization", "Bearer " ++ (llmNode.data.get "apiKey").toTemplate fmt)],
    body :=
      { model := (llmNode.data.get "model").or (JSValue.str "gpt-3.5-turbo"),
        messages := [{ role := "user", content := inputNode.data.get "query" }],
        max_tokens := (llmNode.data.get "maxTokens").or (JSValue.num 2000),
        temperature := (llmNode.data.get "temperature").or (JSValue.num 0.5) } }

/-- The body of the `try` block of `executeWorkflow`, started in the state
`st` in which the error fields have just been cleared.  The first component
is the list of requests passed to `fetch`; the second is `Except.error m` when
an `Error` with message `m` is thrown and the state at the end otherwise. -/
def executeBody (fmt : ℚ → String) (fetch : Request → FetchResult) (st : State) :
    List Request × Except String State :=
  let inputNode := st.nodes.find? (fun n => decide (n.type = NodeType.INPUT))
  let llmNode := st.nodes.find? (fun n => decide (n.type = NodeType.LLM))
  let _outputNode := st.nodes.find? (fun n => decide (n.type = NodeType.OUTPUT))
  if !(optField inputNode "query").truthy then
    ([], Except.ok { st with error := "Error while running the flow ",
                             errorType := "input", showAlert := true })
  else if !(optField llmNode "apiKey").truthy then
    ([], Except.ok { st with error := "LLM is missing API key",
                             errorType := "llm", showAlert := true })
  else
    match inputNode, llmNode with
    | some inputNode, some llmNode =>
      let request := buildRequest fmt inputNode llmNode
      match fetch request with
      | FetchResult.rejects message => ([request], Except.error message)
      | FetchResult.response ok json =>
        if !ok then
          ([request], Except.error "Failed to get response from OpenAI")
        else
          match json with
          | JsonResult.throws message => ([request], Except.error message)
          | JsonResult.content output =>
            ([request], Except.ok { st with nodes := st.nodes.map (fun node =>
              if node.type = NodeType.OUTPUT then
                { node with data := Data.set node.data "output" output }
              else node) })
    | _, _ => ([], Except.error "Cannot read properties of undefined (reading 'data')")

/-- The handler `executeWorkflow`: the state at the end of the run and the
requests that were passed to `fetch`. -/
def executeWorkflow (fmt : ℚ → String) (fetch : Request → FetchResult) (st : State) :
    State × List Request :=
  let st0 := { st with error := "", errorType := "", showAlert := false }
  match executeBody fmt fetch st0 with
  | (requests, Except.ok st1) => (st1, requests)
  | (requests, Except.error message) =>
    ({ st0 with error := message, errorType := "general", showAlert := true }, requests)

/-! ## Sessions -/

/-- A run of `executeWorkflow` that waits at `await fetch(...)`: the request
it issued and `nodes`, the node list of the render in which Run was clicked,
which the rest of the handler works on. -/
structure Pending where
  nodes : List Node
  request : Request
  deriving DecidableEq

/-- The handler `executeWorkflow` up to `await fetch(...)`: the state it
leaves, and the waiting run when the presence checks pass. -/
def executeStart (fmt : ℚ → String) (st : State) : State × Option Pending :=
  let st0 := { st with error := "", errorType := "", showAlert := false }
  let inputNode := st0.nodes.find? (fun n => decide (n.type = NodeType.INPUT))
  let llmNode := st0.nodes.find? (fun n => decide (n.type = NodeType.LLM))
  let _outputNode := st0.nodes.find? (fun n => decide (n.type = NodeType.OUTPUT))
  if !(optField inputNode "query").truthy then
    ({ st0 with error := "Error while running the flow ",
                errorType := "input", showAlert := true }, none)
  else if !(optField llmNode "apiKey").truthy then
    ({ st0 with error := "LLM is missing API key",
                errorType := "llm", showAlert := true }, none)
  else
    match inputNode, llmNode with
    | some inputNode, some llmNode =>
      (st0, some { nodes := st0.nodes, request := buildRequest fmt inputNode llmNode })
    | _, _ =>
      ({ st0 with error := "Cannot read properties of undefined (reading 'data')",
                  errorType := "general", showAlert := true }, none)

/-- The handler `executeWorkflow` from `await fetch(...)` on, for the waiting
run `p` whose request settles with `result`, in the state `st` of that
moment: lines 351 to 367.  `setNodes` is given `nodes.map(...)` over the
captured list `p.nodes`. -/
def executeSettle (p : Pending) (result : FetchResult) (st : State) : State :=
  match result with
  | FetchResult.rejects message =>
    { st with error := message, errorType := "general", showAlert := true }
  | FetchResult.response ok json =>
    if !ok then
      { st with error := "Failed to get response from OpenAI",
                errorType := "general", showAlert := true }
    else
      match json with
      | JsonResult.throws message =>
        { st with error := message, errorType := "general", showAlert := true }
      | JsonResult.content output =>
        { st with nodes := p.nodes.map (fun node =>
            if node.type = NodeType.OUTPUT then
              { node with data := Data.set node.data "output" output }
            else node) }

/-- The events of a session.  `executeWorkflow` is a click on Run, `settle k
result` is the settling, with `result`, of the request of the `k`-th waiting
run. -/
inductive Op where
  | addNode (now : Nat) (type : NodeType)
  | updateNodePosition (nodeId : String) (newPosition : Position)
  | updateNodeData (nodeId : String) (newData : Data)
  | startConnection (nodeId : String)
  | endConnection (nodeId : String)
  | mouseMove (clientX clientY : Int)
  | closeAlert
  | executeWorkflow
  | settle (k : Nat) (result : FetchResult)

/-- A session: the state of the component and the runs of `executeWorkflow`
that wait for their request, oldest first. -/
structure Session where
  state : State
  pending : List Pending
  deriving DecidableEq

/-- The session that starts in the state `st` with no request under way. -/
def Session.start (st : State) : Session :=
  { state := st, pending := [] }

/-- The session after one event. -/
def step (fmt : ℚ → String) (s : Session) : Op → Session
  | Op.addNode now type => { s with state := addNode now type s.state }
  | Op.updateNodePosition nodeId newPosition =>
    { s with state := updateNodePosition nodeId newPosition s.state }
  | Op.updateNodeData nodeId newData =>
    { s with state := updateNodeData nodeId newData s.state }
  | Op.startConnection nodeId => { s with state := startConnection nodeId s.state }
  | Op.endConnection nodeId => { s with state := endConnection nodeId s.state }
  | Op.mouseMove clientX clientY => { s with state := handleMouseMove clientX clientY s.state }
  | Op.closeAlert => { s with state := closeAlert s.state }
  | Op.executeWorkflow =>
    { state := (executeStart fmt s.state).1,
      pending := s.pending ++ (executeStart fmt s.state).2.toList }
  | Op.settle k result =>
    match s.pending[k]? with
    | some p => { state := executeSettle p result s.state, pending := s.pending.eraseIdx k }
    | none => s

/-- The session after a sequence of events. -/
def sessionFrom (fmt : ℚ → String) (s : Session) (ops : List Op) : Session :=
  ops.foldl (step fmt) s

/-- The state after a sequence of events, from the state `st` with no request
under way. -/
def runFrom (fmt : ℚ → String) (st : State) (ops : List Op) : State :=
  (sessionFrom fmt (Session.start st) ops).state

/-- The state after a sequence of events, from the empty canvas. -/
def run (fmt : ℚ → String) (ops : List Op) : State :=
  runFrom fmt State.init ops

/-- The `addNode` calls of a session, in order: type and clock reading. -/
def addCalls : List Op → List (NodeType × Nat)
  | [] => []
  | Op.addNode now type :: ops => (type, now) :: addCalls ops
  | _ :: ops => addCalls ops

/-! ## Vocabulary of the specification -/

/-- The node `n` is the first node of type `t` of `nodes`, in collection
order. -/
def FirstOfType (t : NodeType) (nodes : List Node) (n : Node) : Prop :=
  ∃ pre post, nodes = pre ++ n :: post ∧ n.type = t ∧ ∀ m ∈ pre, m.type ≠ t

/-- The input condition: a first Input node exists and its `query` is truthy. -/
def InputPresent (st : State) : Prop :=
  ∃ n, FirstOfType NodeType.INPUT st.nodes n ∧ (n.data.get "query").truthy = true

/-- The credential condition: a first Model node exists and its `apiKey` is
truthy. -/
def CredentialPresent (st : State) : Prop :=
  ∃ n, FirstOfType NodeType.LLM st.nodes n ∧ (n.data.get "apiKey").truthy = true

/-- The protocol state of §4.2, read from `isConnecting` and `connectionStart`. -/
inductive Protocol where
  | idle
  | connecting (source : Option String)
  deriving DecidableEq

/-- The protocol state of a component state. -/
def State.protocol (st : State) : Protocol :=
  if st.isConnecting = true then Protocol.connecting st.connectionStart else Protocol.idle

/-- The data of the first node of type `t`, if there is one. -/
def firstData (t : NodeType) (nodes : List Node) : Option Data :=
  match nodes with
  | [] => none
  | n :: rest => if n.type = t then some n.data else firstData t rest

/-- The state in which a failing run of `executeWorkflow` ends. -/
def failed (st : State) (message kind : String) : State :=
  { st with error := message, errorType := kind, showAlert := true }

/-- The state in which a successful run of `executeWorkflow` ends. -/
def succeeded (st : State) (output : JSValue) : State :=
  { st with
    nodes := st.nodes.map (fun node =>
      if node.type = NodeType.OUTPUT then
        { node with data := Data.set node.data "output" output }
      else node),
    error := "", errorType := "", showAlert := false }

/-! ## Sample sessions -/

/-- A rendering of numbers for sessions in which no number is rendered. -/
def noRender : ℚ → String := fun _ => ""

/-- The session of §8: one node of each type, the query `2+2?` and the key
`sk-test`. -/
def sampleOps : List Op :=
  [Op.addNode 1 NodeType.INPUT, Op.addNode 2 NodeType.LLM, Op.addNode 3 NodeType.OUTPUT,
   Op.updateNodeData "input-1" [("query", JSValue.str "2+2?")],
   Op.updateNodeData "llm-2" [("apiKey", JSValue.str "sk-test")]]

/-- The state at the end of `sampleOps`. -/
def sampleState : State := run noRender sampleOps

/-- The first node of `sampleState`. -/
def sampleInput : Node :=
  { id := "input-1", type := NodeType.INPUT, position := { x := 300, y := 100 },
    data := [("query", JSValue.str "2+2?")] }

/-- The second node of `sampleState`. -/
def sampleModel : Node :=
  { id := "llm-2", type := NodeType.LLM, position := { x := 300, y := 100 },
    data := [("model", JSValue.str "gpt-3.5-turbo"), ("maxTokens", JSValue.num 2000),
             ("temperature", JSValue.num 0.5),
             ("apiBase", JSValue.str "https://api.openai.com/v1"),
             ("apiKey", JSValue.str "sk-test")] }

/-- The third node of `sampleState`. -/
def sampleOutput : Node :=
  { id := "output-3", type := NodeType.OUTPUT, position := { x := 300, y := 100 },
    data := [] }

/-- A mocked API answering every request with HTTP 401. -/
def fetch401 : Request → FetchResult :=
  fun _ => FetchResult.response false (JsonResult.content JSValue.undefined)

/-- A network that is down: every request is rejected. -/
def fetchDown (message : String) : Request → FetchResult :=
  fun _ => FetchResult.rejects message

/-- A mocked API answering every request with a success status and a body
that cannot be read: `response.json()` or the access to
`choices[0].message.content` throws. -/
def fetchMalformed (message : String) : Request → FetchResult :=
  fun _ => FetchResult.response true (JsonResult.throws message)

/-- A mocked API answering every request with the content `4`. -/
def fetchFour : Request → FetchResult :=
  fun _ => FetchResult.response true (JsonResult.content (JSValue.str "4"))

/-! ## Decimal digits -/

/-- The value of a decimal digit character. -/
def digitVal (c : Char) : Nat := c.toNat - 48

/-- The number that a list of decimal digits, most significant first, writes. -/
def decodeDigits (l : List Char) : Nat :=
  l.foldl (fun acc c => 10 * acc + digitVal c) 0

/-- The sample session with a second Output node added. -/
def twoOutputsState : State := addNode 4 NodeType.OUTPUT sampleState

/-- The sample session after the temperature field was set to `0`. -/
def zeroTemperatureState : State :=
  updateNodeData "llm-2" [("temperature", JSValue.num 0)] sampleState

/-- The Model node of `zeroTemperatureState`. -/
def zeroTemperatureModel : Node :=
  { id := "llm-2", type := NodeType.LLM, position := { x := 300, y := 100 },
    data := [("model", JSValue.str "gpt-3.5-turbo"), ("maxTokens", JSValue.num 2000),
             ("temperature", JSValue.num 0),
             ("apiBase", JSValue.str "https://api.openai.com/v1"),
             ("apiKey", JSValue.str "sk-test")] }

/-! # Theorems -/

/-! ## Lemmas on objects -/

theorem Data.lookup_set_self (d : Data) (k : String) (v : JSValue) :
    Data.lookup (Data.set d k v) k = some v := by
  induction d with
  | nil => simp [Data.set, Data.lookup]
  | cons kv rest ih =>
    obtain ⟨k', v'⟩ := kv
    by_cases h : k' = k
    · simp [Data.set, Data.lookup, h]
    · simp [Data.set, Data.lookup, h, ih]

theorem Data.lookup_set_of_ne (d : Data) (k k' : String) (v : JSValue) (h : k ≠ k') :
    Data.lookup (Data.set d k v) k' = Data.lookup d k' := by
  induction d with
  | nil => simp [Data.set, Data.lookup, h]
  | cons kv rest ih =>
    obtain ⟨k₀, v₀⟩ := kv
    by_cases h₀ : k₀ = k
    · subst h₀
      simp [Data.set, Data.lookup, h]
    · by_cases h₁ : k₀ = k'
      · subst h₁
        simp [Data.set, Data.lookup, h₀]
      · simp [Data.set, Data.lookup, h₀, h₁, ih]

theorem Data.spread_single (d : Data) (k : String) (v : JSValue) :
    Data.spread d [(k, v)] = Data.set d k v := rfl

/-! ## Lemmas on the first node of a type -/

theorem find?_type_eq_some_iff (t : NodeType) (nodes : List Node) (n : Node) :
    nodes.find? (fun m => decide (m.type = t)) = some n ↔ FirstOfType t nodes n := by
  rw [List.find?_eq_some]
  unfold FirstOfType
  constructor
  · rintro ⟨hn, pre, post, hsplit, hpre⟩
    refine ⟨pre, post, hsplit, by simpa using hn, ?_⟩
    intro m hm
    simpa using hpre m hm
  · rintro ⟨pre, post, hsplit, hn, hpre⟩
    refine ⟨by simpa using hn, pre, post, hsplit, ?_⟩
    intro m hm
    simpa using hpre m hm

theorem find?_type_eq_none_iff (t : NodeType) (nodes : List Node) :
    nodes.find? (fun m => decide (m.type = t)) = none ↔ ∀ n, ¬ FirstOfType t nodes n := by
  constructor
  · intro h n hn
    rw [← find?_type_eq_some_iff, h] at hn
    cases hn
  · intro h
    cases hfind : nodes.find? (fun m => decide (m.type = t)) with
    | none => rfl
    | some n => exact absurd ((find?_type_eq_some_iff t nodes n).1 hfind) (h n)

theorem FirstOfType.unique {t : NodeType} {nodes : List Node} {n m : Node}
    (hn : FirstOfType t nodes n) (hm : FirstOfType t nodes m) : n = m := by
  rw [← find?_type_eq_some_iff] at hn hm
  rw [hn] at hm
  exact Option.some.inj hm

/-! ## Adding nodes -/

theorem sessionFrom_addNode_length (fmt : ℚ → String) (calls : List (Nat × NodeType)) :
    ∀ s : Session,
      (sessionFrom fmt s (calls.map (fun c => Op.addNode c.1 c.2))).state.nodes.length
        = s.state.nodes.length + calls.length := by
  induction calls with
  | nil => intro s; simp [sessionFrom]
  | cons c rest ih =>
    intro s
    have h := ih (step fmt s (Op.addNode c.1 c.2))
    simp only [sessionFrom, List.map_cons, List.foldl_cons] at h ⊢
    rw [h]
    simp [step, addNode]
    omega

/-- C5: `addNode(t)` appends exactly one node to the old collection; the new
node has type `t`, position (300, 100) and the default data of its type (the
four Model defaults for the Model type, the empty mapping otherwise); and `N`
calls of `addNode` on the empty canvas give exactly `N` entries. -/
theorem addNode_appends_default_node :
    (∀ (now : Nat) (t : NodeType) (st : State), ∃ n : Node,
      (addNode now t st).nodes = st.nodes ++ [n] ∧
      (addNode now t st).nodes.length = st.nodes.length + 1 ∧
      n.type = t ∧ n.position = { x := 300, y := 100 } ∧
      (t = NodeType.LLM →
        n.data = [("model", JSValue.str "gpt-3.5-turbo"), ("maxTokens", JSValue.num 2000),
                  ("temperature", JSValue.num 0.5),
                  ("apiBase", JSValue.str "https://api.openai.com/v1")]) ∧
      (t ≠ NodeType.LLM → n.data = [])) ∧
    (∀ (fmt : ℚ → String) (calls : List (Nat × NodeType)),
      (run fmt (calls.map (fun c => Op.addNode c.1 c.2))).nodes.length = calls.length) := by
  refine ⟨?_, ?_⟩
  · intro now t st
    refine ⟨_, rfl, by simp [addNode], rfl, rfl, ?_, ?_⟩
    · intro h; simp [defaultData, h]
    · intro h; simp [defaultData, h]
  · intro fmt calls
    have h := sessionFrom_addNode_length fmt calls (Session.start State.init)
    simpa [run, runFrom, Session.start, State.init] using h

/-- C5, at a concrete canvas: a Model node added at clock reading 7 to a canvas
holding one Input node. -/
theorem addNode_appends_default_node_witness :
    (addNode 7 NodeType.LLM (addNode 3 NodeType.INPUT State.init)).nodes.map Node.id
        = ["input-3", "llm-7"] ∧
    (run (fun _ => "") ([(3, NodeType.INPUT), (7, NodeType.LLM)].map
        (fun c => Op.addNode c.1 c.2))).nodes.length = 2 :=
  ⟨by rfl, addNode_appends_default_node.2 (fun _ => "") [(3, NodeType.INPUT), (7, NodeType.LLM)]⟩

/-! ## The connection protocol -/

/-- C7: `endConnection(n)` appends the one connection from `s` to `n` as the
last entry of the connection collection exactly when the protocol state is
`connecting(s)` with `s ≠ n`; when the state is idle or `n = s` the
connection collection is unchanged; the protocol state afterwards is idle. -/
theorem endConnection_protocol (st : State) (n : String) :
    (∀ s : Option String, st.protocol = Protocol.connecting s → s ≠ some n →
      (endConnection n st).connections = st.connections ++ [{ source := s, target := n }]) ∧
    (st.protocol = Protocol.idle ∨ st.protocol = Protocol.connecting (some n) →
      (endConnection n st).connections = st.connections) ∧
    ((∃ c, (endConnection n st).connections = st.connections ++ [c]) ↔
      ∃ s : Option String, st.protocol = Protocol.connecting s ∧ s ≠ some n) ∧
    (endConnection n st).protocol = Protocol.idle ∧
    (endConnection n st).isConnecting = false ∧
    (endConnection n st).connectionStart = none ∧
    (endConnection n st).nodes = st.nodes := by
  obtain ⟨nodes, conns, err, errT, isC, cs, alert, tl⟩ := st
  cases isC <;> by_cases h : cs = some n <;>
    simp [endConnection, State.protocol, h]

/-- C7, at a concrete state: after `startConnection('a')`, `endConnection('b')`
appends the connection from `a` to `b`. -/
theorem endConnection_protocol_witness :
    (endConnection "b" (startConnection "a" State.init)).connections
      = State.init.connections ++ [{ source := some "a", target := "b" }] :=
  (endConnection_protocol (startConnection "a" State.init) "b").1 (some "a")
    (by rfl) (by decide)

/-! ## Editing node data -/

/-- C6: `updateNodeData` merges. After `updateNodeData(id, {A: a})` and then
`updateNodeData(id, {B: b})` with `A ≠ B`, the collection has the same length;
every node keeps its id, type and position; a node with id `id` has `A = a`,
`B = b` and every other key as before (present with its old value, or still
absent); a node with another id is unchanged. -/
theorem updateNodeData_merges (st : State) (id A B : String) (a b : JSValue) (hAB : A ≠ B) :
    (updateNodeData id [(B, b)] (updateNodeData id [(A, a)] st)).nodes.length
      = st.nodes.length ∧
    ∀ (i : Nat) (n : Node), st.nodes[i]? = some n →
      ∃ n₂ : Node,
        (updateNodeData id [(B, b)] (updateNodeData id [(A, a)] st)).nodes[i]? = some n₂ ∧
        n₂.id = n.id ∧ n₂.type = n.type ∧ n₂.position = n.position ∧
        (n.id = id →
          Data.lookup n₂.data A = some a ∧ Data.lookup n₂.data B = some b ∧
          n₂.data.get A = a ∧ n₂.data.get B = b ∧
          ∀ k : String, k ≠ A → k ≠ B → Data.lookup n₂.data k = Data.lookup n.data k) ∧
        (n.id ≠ id → n₂ = n) := by
  refine ⟨by simp [updateNodeData], ?_⟩
  intro i n hn
  by_cases hid : n.id = id
  · refine ⟨{ n with data := Data.set (Data.set n.data A a) B b }, ?_, rfl, rfl, rfl, ?_, ?_⟩
    · simp [updateNodeData, List.getElem?_map, hn, hid, Data.spread_single]
    · intro _
      have hA : Data.lookup (Data.set (Data.set n.data A a) B b) A = some a := by
        rw [Data.lookup_set_of_ne _ _ _ _ (Ne.symm hAB), Data.lookup_set_self]
      have hB : Data.lookup (Data.set (Data.set n.data A a) B b) B = some b :=
        Data.lookup_set_self _ _ _
      refine ⟨hA, hB, by simp [Data.get, hA], by simp [Data.get, hB], ?_⟩
      intro k hkA hkB
      show Data.lookup (Data.set (Data.set n.data A a) B b) k = Data.lookup n.data k
      rw [Data.lookup_set_of_ne _ _ _ _ (Ne.symm hkB),
        Data.lookup_set_of_ne _ _ _ _ (Ne.symm hkA)]
    · intro h; exact absurd hid h
  · refine ⟨n, ?_, rfl, rfl, rfl, ?_, ?_⟩
    · simp [updateNodeData, List.getElem?_map, hn, hid]
    · intro h; exact absurd h hid
    · intro _; rfl

/-- C6, at a concrete canvas: on a fresh Model node, setting `apiKey` and then
`model` leaves both set and keeps the default `maxTokens`. -/
theorem updateNodeData_merges_witness :
    ("apiKey" : String) ≠ "model" ∧
    ∃ n₂ : Node,
      (updateNodeData "llm-7" [("model", JSValue.str "gpt-4")]
        (updateNodeData "llm-7" [("apiKey", JSValue.str "sk-test")]
          (addNode 7 NodeType.LLM State.init))).nodes[0]? = some n₂ ∧
      Data.lookup n₂.data "apiKey" = some (JSValue.str "sk-test") ∧
      Data.lookup n₂.data "model" = some (JSValue.str "gpt-4") ∧
      Data.lookup n₂.data "maxTokens" = some (JSValue.num 2000) := by
  refine ⟨by decide, ?_⟩
  obtain ⟨n₂, h₀, -, -, -, hdata, -⟩ :=
    (updateNodeData_merges (addNode 7 NodeType.LLM State.init) "llm-7" "apiKey" "model"
      (JSValue.str "sk-test") (JSValue.str "gpt-4") (by decide)).2 0 _ rfl
  obtain ⟨hA, hB, -, -, hrest⟩ := hdata rfl
  exact ⟨n₂, h₀, hA, hB, (hrest "maxTokens" (by decide) (by decide)).trans rfl⟩

/-! ## Lemmas on the execution step -/

theorem optField_truthy_iff (t : NodeType) (nodes : List Node) (k : String) :
    (optField (nodes.find? (fun m => decide (m.type = t))) k).truthy = true ↔
      ∃ n, FirstOfType t nodes n ∧ (n.data.get k).truthy = true := by
  cases hfind : nodes.find? (fun m => decide (m.type = t)) with
  | none =>
    have hnone := (find?_type_eq_none_iff t nodes).1 hfind
    simp only [optField, JSValue.truthy, Bool.false_eq_true, false_iff]
    rintro ⟨n, hn, _⟩
    exact hnone n hn
  | some n₀ =>
    have h₀ := (find?_type_eq_some_iff t nodes n₀).1 hfind
    simp only [optField]
    constructor
    · intro h; exact ⟨n₀, h₀, h⟩
    · rintro ⟨n, hn, h⟩
      rw [FirstOfType.unique h₀ hn]; exact h

theorem executeWorkflow_input_missing (fmt : ℚ → String) (fetch : Request → FetchResult)
    (st : State) (h : ¬ InputPresent st) :
    executeWorkflow fmt fetch st = (failed st "Error while running the flow " "input", []) := by
  have hq : (optField (st.nodes.find? (fun m => decide (m.type = NodeType.INPUT)))
      "query").truthy = false := by
    rw [Bool.eq_false_iff]
    intro hc
    exact h ((optField_truthy_iff _ _ _).1 hc)
  simp [executeWorkflow, executeBody, hq, failed]

theorem executeWorkflow_credential_missing (fmt : ℚ → String)
    (fetch : Request → FetchResult) (st : State)
    (hi : InputPresent st) (h : ¬ CredentialPresent st) :
    executeWorkflow fmt fetch st = (failed st "LLM is missing API key" "llm", []) := by
  have hq : (optField (st.nodes.find? (fun m => decide (m.type = NodeType.INPUT)))
      "query").truthy = true := (optField_truthy_iff _ _ _).2 hi
  have hk : (optField (st.nodes.find? (fun m => decide (m.type = NodeType.LLM)))
      "apiKey").truthy = false := by
    rw [Bool.eq_false_iff]
    intro hc
    exact h ((optField_truthy_iff _ _ _).1 hc)
  simp [executeWorkflow, executeBody, hq, hk, failed]

theorem executeWorkflow_checked (fmt : ℚ → String) (fetch : Request → FetchResult)
    (st : State) (i l : Node)
    (hi : FirstOfType NodeType.INPUT st.nodes i) (hq : (i.data.get "query").truthy = true)
    (hl : FirstOfType NodeType.LLM st.nodes l) (hk : (l.data.get "apiKey").truthy = true) :
    executeWorkflow fmt fetch st =
      (match fetch (buildRequest fmt i l) with
       | FetchResult.rejects message => failed st message "general"
       | FetchResult.response false _ => failed st "Failed to get response from OpenAI" "general"
       | FetchResult.response true (JsonResult.throws message) => failed st message "general"
       | FetchResult.response true (JsonResult.content output) => succeeded st output,
       [buildRequest fmt i l]) := by
  have hfi := (find?_type_eq_some_iff _ _ _).2 hi
  have hfl := (find?_type_eq_some_iff _ _ _).2 hl
  simp only [executeWorkflow, executeBody, hfi, hfl, optField, hq, hk]
  cases hf : fetch (buildRequest fmt i l) with
  | rejects message => simp [failed]
  | response ok json =>
    cases ok with
    | false => simp [failed]
    | true =>
      cases json with
      | throws message => simp [failed]
      | content output => simp [succeeded]

theorem firstData_eq_some_iff (t : NodeType) (nodes : List Node) (d : Data) :
    firstData t nodes = some d ↔ ∃ n, FirstOfType t nodes n ∧ n.data = d := by
  induction nodes with
  | nil =>
    simp only [firstData]
    constructor
    · intro h; cases h
    · rintro ⟨n, ⟨pre, post, hsplit, -, -⟩, -⟩
      simp at hsplit
  | cons m rest ih =>
    by_cases hm : m.type = t
    · simp only [firstData, hm, if_true]
      have hfirst : FirstOfType t (m :: rest) m := ⟨[], rest, rfl, hm, by simp⟩
      constructor
      · intro h
        exact ⟨m, hfirst, Option.some.inj h⟩
      · rintro ⟨n, hn, hd⟩
        rw [FirstOfType.unique hfirst hn, hd]
    · simp only [firstData, hm, if_false]
      rw [ih]
      constructor
      · rintro ⟨n, ⟨pre, post, hsplit, hn, hpre⟩, hd⟩
        refine ⟨n, ⟨m :: pre, post, by simp [hsplit], hn, ?_⟩, hd⟩
        intro x hx
        rcases List.mem_cons.1 hx with rfl | hx
        · exact hm
        · exact hpre x hx
      · rintro ⟨n, ⟨pre, post, hsplit, hn, hpre⟩, hd⟩
        cases pre with
        | nil =>
          simp only [List.nil_append, List.cons.injEq] at hsplit
          exact absurd (hsplit.1 ▸ hn) hm
        | cons x pre =>
          simp only [List.cons_append, List.cons.injEq] at hsplit
          exact ⟨n, ⟨pre, post, hsplit.2, hn, fun y hy => hpre y (List.mem_cons_of_mem _ hy)⟩, hd⟩

theorem present_iff_firstData (t : NodeType) (nodes : List Node) (k : String) :
    (∃ n, FirstOfType t nodes n ∧ (n.data.get k).truthy = true) ↔
      ∃ d, firstData t nodes = some d ∧ (Data.get d k).truthy = true := by
  constructor
  · rintro ⟨n, hn, h⟩
    exact ⟨n.data, (firstData_eq_some_iff t nodes n.data).2 ⟨n, hn, rfl⟩, h⟩
  · rintro ⟨d, hd, h⟩
    obtain ⟨n, hn, rfl⟩ := (firstData_eq_some_iff t nodes d).1 hd
    exact ⟨n, hn, h⟩

theorem buildRequest_congr (fmt : ℚ → String) {i i' l l' : Node}
    (hi : i.data = i'.data) (hl : l.data = l'.data) :
    buildRequest fmt i l = buildRequest fmt i' l' := by
  simp [buildRequest, hi, hl]

/-! ## The presence checks -/

/-- C8: `executeWorkflow` issues a request exactly when the first Input node
exists with a truthy `query` and the first Model node exists with a truthy
`apiKey`; otherwise it issues none and fails, with tag `input` whenever the
input condition fails and with tag `llm` when only the credential condition
fails. -/
theorem executeWorkflow_request_iff_present (fmt : ℚ → String)
    (fetch : Request → FetchResult) (st : State) :
    ((executeWorkflow fmt fetch st).2.length = 1 ↔
      InputPresent st ∧ CredentialPresent st) ∧
    (¬ (InputPresent st ∧ CredentialPresent st) → (executeWorkflow fmt fetch st).2 = []) ∧
    (¬ InputPresent st →
      (executeWorkflow fmt fetch st).2 = [] ∧
      (executeWorkflow fmt fetch st).1.errorType = "input" ∧
      (executeWorkflow fmt fetch st).1.error = "Error while running the flow " ∧
      (executeWorkflow fmt fetch st).1.showAlert = true) ∧
    (InputPresent st → ¬ CredentialPresent st →
      (executeWorkflow fmt fetch st).2 = [] ∧
      (executeWorkflow fmt fetch st).1.errorType = "llm" ∧
      (executeWorkflow fmt fetch st).1.error = "LLM is missing API key" ∧
      (executeWorkflow fmt fetch st).1.showAlert = true) := by
  have hA : ¬ InputPresent st →
      (executeWorkflow fmt fetch st).2 = [] ∧
      (executeWorkflow fmt fetch st).1.errorType = "input" ∧
      (executeWorkflow fmt fetch st).1.error = "Error while running the flow " ∧
      (executeWorkflow fmt fetch st).1.showAlert = true := by
    intro h
    rw [executeWorkflow_input_missing fmt fetch st h]
    exact ⟨rfl, rfl, rfl, rfl⟩
  have hB : InputPresent st → ¬ CredentialPresent st →
      (executeWorkflow fmt fetch st).2 = [] ∧
      (executeWorkflow fmt fetch st).1.errorType = "llm" ∧
      (executeWorkflow fmt fetch st).1.error = "LLM is missing API key" ∧
      (executeWorkflow fmt fetch st).1.showAlert = true := by
    intro hi h
    rw [executeWorkflow_credential_missing fmt fetch st hi h]
    exact ⟨rfl, rfl, rfl, rfl⟩
  have hC : InputPresent st → CredentialPresent st →
      (executeWorkflow fmt fetch st).2.length = 1 := by
    rintro ⟨i, hi, hq⟩ ⟨l, hl, hk⟩
    rw [executeWorkflow_checked fmt fetch st i l hi hq hl hk]
    rfl
  have hD : ¬ (InputPresent st ∧ CredentialPresent st) →
      (executeWorkflow fmt fetch st).2 = [] := by
    intro h
    by_cases hi : InputPresent st
    · exact (hB hi (fun hc => h ⟨hi, hc⟩)).1
    · exact (hA hi).1
  refine ⟨⟨?_, fun h => hC h.1 h.2⟩, hD, hA, hB⟩
  intro hlen
  by_contra hne
  rw [hD hne] at hlen
  simp at hlen

/-! ## Failures -/

/-- C3: a failing run of `executeWorkflow` leaves the node collection, the
connection collection and the connection-in-progress state as they were; and
a run fails when the input query is missing, when the API key is missing, and
when the request does not come back with a success status and a readable
content. -/
theorem executeWorkflow_failure_atomic (fmt : ℚ → String)
    (fetch : Request → FetchResult) (st : State) :
    ((executeWorkflow fmt fetch st).1.showAlert = true →
      (executeWorkflow fmt fetch st).1.nodes = st.nodes ∧
      (executeWorkflow fmt fetch st).1.connections = st.connections ∧
      (executeWorkflow fmt fetch st).1.isConnecting = st.isConnecting ∧
      (executeWorkflow fmt fetch st).1.connectionStart = st.connectionStart ∧
      (executeWorkflow fmt fetch st).1.tempLine = st.tempLine) ∧
    (¬ InputPresent st → (executeWorkflow fmt fetch st).1.showAlert = true) ∧
    (¬ CredentialPresent st → (executeWorkflow fmt fetch st).1.showAlert = true) ∧
    (∀ i l : Node, FirstOfType NodeType.INPUT st.nodes i →
      FirstOfType NodeType.LLM st.nodes l →
      (∀ output, fetch (buildRequest fmt i l)
        ≠ FetchResult.response true (JsonResult.content output)) →
      (executeWorkflow fmt fetch st).1.showAlert = true) := by
  by_cases hi : InputPresent st
  · by_cases hc : CredentialPresent st
    · obtain ⟨i, hfi, hq⟩ := hi
      obtain ⟨l, hfl, hk⟩ := hc
      rw [executeWorkflow_checked fmt fetch st i l hfi hq hfl hk]
      refine ⟨?_, fun h => absurd ⟨i, hfi, hq⟩ h, fun h => absurd ⟨l, hfl, hk⟩ h, ?_⟩
      · cases hf : fetch (buildRequest fmt i l) with
        | rejects message => intro _; exact ⟨rfl, rfl, rfl, rfl, rfl⟩
        | response ok json =>
          cases ok with
          | false => intro _; exact ⟨rfl, rfl, rfl, rfl, rfl⟩
          | true =>
            cases json with
            | throws message => intro _; exact ⟨rfl, rfl, rfl, rfl, rfl⟩
            | content output => intro h; simp [succeeded] at h
      · intro i' l' hi' hl' hne
        rw [FirstOfType.unique hi' hfi, FirstOfType.unique hl' hfl] at hne
        cases hf : fetch (buildRequest fmt i l) with
        | rejects message => rfl
        | response ok json =>
          cases ok with
          | false => rfl
          | true =>
            cases json with
            | throws message => rfl
            | content output => exact absurd hf (hne output)
    · rw [executeWorkflow_credential_missing fmt fetch st hi hc]
      exact ⟨fun _ => ⟨rfl, rfl, rfl, rfl, rfl⟩, fun _ => rfl, fun _ => rfl,
        fun _ _ _ _ _ => rfl⟩
  · rw [executeWorkflow_input_missing fmt fetch st hi]
    exact ⟨fun _ => ⟨rfl, rfl, rfl, rfl, rfl⟩, fun _ => rfl, fun _ => rfl,
      fun _ _ _ _ _ => rfl⟩

/-! ## The sample session -/

theorem sampleState_nodes : sampleState.nodes = [sampleInput, sampleModel, sampleOutput] := by
  rfl

theorem sampleState_input : FirstOfType NodeType.INPUT sampleState.nodes sampleInput :=
  ⟨[], [sampleModel, sampleOutput], sampleState_nodes, rfl, by simp⟩

theorem sampleState_model : FirstOfType NodeType.LLM sampleState.nodes sampleModel :=
  ⟨[sampleInput], [sampleOutput], sampleState_nodes, rfl, by simp [sampleInput]⟩

theorem sampleState_inputPresent : InputPresent sampleState :=
  ⟨sampleInput, sampleState_input, by rfl⟩

theorem sampleState_credentialPresent : CredentialPresent sampleState :=
  ⟨sampleModel, sampleState_model, by rfl⟩

/-- C8, on a canvas whose Input node has the query `""`: the run fails with
tag `input` and issues no request. -/
theorem executeWorkflow_request_iff_present_witness :
    (executeWorkflow noRender fetchFour
      (updateNodeData "input-1" [("query", JSValue.str "")] sampleState)).2 = [] ∧
    (executeWorkflow noRender fetchFour
      (updateNodeData "input-1" [("query", JSValue.str "")] sampleState)).1.errorType
        = "input" :=
  have h := (executeWorkflow_request_iff_present noRender fetchFour
    (updateNodeData "input-1" [("query", JSValue.str "")] sampleState)).2.2.1
    (fun hp => by
      have hq := (optField_truthy_iff NodeType.INPUT _ "query").2 hp
      revert hq
      decide)
  ⟨h.1, h.2.1⟩

/-- C3, with a mocked API returning HTTP 401: the run fails and the nodes, in
particular the Output node, and the connections are as before. -/
theorem executeWorkflow_failure_atomic_witness :
    (executeWorkflow noRender fetch401 sampleState).1.showAlert = true ∧
    (executeWorkflow noRender fetch401 sampleState).1.nodes = sampleState.nodes ∧
    (executeWorkflow noRender fetch401 sampleState).1.connections
      = sampleState.connections :=
  have hfail : (executeWorkflow noRender fetch401 sampleState).1.showAlert = true :=
    (executeWorkflow_failure_atomic noRender fetch401 sampleState).2.2.2
      sampleInput sampleModel sampleState_input sampleState_model
      (fun output h => by simp [fetch401] at h)
  have h := (executeWorkflow_failure_atomic noRender fetch401 sampleState).1 hfail
  ⟨hfail, h.1, h.2.1⟩

/-- C2 as stated fails: with a mocked API returning HTTP 401 the run ends with
the tag `general`, the very tag that a transport failure and a parsing failure
give, and the final state is the one a transport failure with the same message
gives. -/
theorem nonsuccess_status_has_general_tag :
    (executeWorkflow noRender fetch401 sampleState).1.errorType = "general" ∧
    (executeWorkflow noRender fetch401 sampleState).1.errorType
      = (executeWorkflow noRender (fetchDown "Failed to fetch") sampleState).1.errorType ∧
    (executeWorkflow noRender fetch401 sampleState).1.errorType
      = (executeWorkflow noRender (fetchMalformed "Unexpected end of JSON input")
          sampleState).1.errorType ∧
    (executeWorkflow noRender fetch401 sampleState).1
      = (executeWorkflow noRender (fetchDown "Failed to get response from OpenAI")
          sampleState).1 := by
  rw [executeWorkflow_checked noRender fetch401 sampleState sampleInput sampleModel
      sampleState_input (by rfl) sampleState_model (by rfl),
    executeWorkflow_checked noRender (fetchDown "Failed to fetch") sampleState sampleInput
      sampleModel sampleState_input (by rfl) sampleState_model (by rfl),
    executeWorkflow_checked noRender (fetchMalformed "Unexpected end of JSON input")
      sampleState sampleInput sampleModel sampleState_input (by rfl) sampleState_model
      (by rfl),
    executeWorkflow_checked noRender (fetchDown "Failed to get response from OpenAI")
      sampleState sampleInput sampleModel sampleState_input (by rfl) sampleState_model
      (by rfl)]
  exact ⟨rfl, rfl, rfl, rfl⟩

/-- C2, amended: for a state that passes both presence checks, with `i` its
first Input node and `l` its first Model node, a response to the request built
from them with a non-success status ends the run with the message
`Failed to get response from OpenAI` and the tag `general`; a transport
failure (the request is rejected) and a parsing failure (the body of a
success response cannot be read) end the run with the same tag `general` and
the message of the failure. -/
theorem executeWorkflow_nonsuccess_status (fmt : ℚ → String)
    (fetch : Request → FetchResult) (st : State) (i l : Node)
    (hi : FirstOfType NodeType.INPUT st.nodes i) (hq : (i.data.get "query").truthy = true)
    (hl : FirstOfType NodeType.LLM st.nodes l) (hk : (l.data.get "apiKey").truthy = true)
    (hstatus : ∃ json, fetch (buildRequest fmt i l) = FetchResult.response false json) :
    (executeWorkflow fmt fetch st).1.error = "Failed to get response from OpenAI" ∧
    (executeWorkflow fmt fetch st).1.errorType = "general" ∧
    (executeWorkflow fmt fetch st).1.showAlert = true ∧
    (∀ (transport : Request → FetchResult) (message : String),
      transport (buildRequest fmt i l) = FetchResult.rejects message →
      (executeWorkflow fmt transport st).1.error = message ∧
      (executeWorkflow fmt transport st).1.errorType = "general" ∧
      (executeWorkflow fmt transport st).1.showAlert = true) ∧
    (∀ (parsing : Request → FetchResult) (message : String),
      parsing (buildRequest fmt i l)
        = FetchResult.response true (JsonResult.throws message) →
      (executeWorkflow fmt parsing st).1.error = message ∧
      (executeWorkflow fmt parsing st).1.errorType = "general" ∧
      (executeWorkflow fmt parsing st).1.showAlert = true) := by
  obtain ⟨json, hjson⟩ := hstatus
  refine ⟨?_, ?_, ?_, ?_, ?_⟩
  · rw [executeWorkflow_checked fmt fetch st i l hi hq hl hk, hjson]; rfl
  · rw [executeWorkflow_checked fmt fetch st i l hi hq hl hk, hjson]; rfl
  · rw [executeWorkflow_checked fmt fetch st i l hi hq hl hk, hjson]; rfl
  · intro transport message ht
    rw [executeWorkflow_checked fmt transport st i l hi hq hl hk, ht]
    exact ⟨rfl, rfl, rfl⟩
  · intro parsing message hp
    rw [executeWorkflow_checked fmt parsing st i l hi hq hl hk, hp]
    exact ⟨rfl, rfl, rfl⟩

/-- C2, amended, with a mocked API returning HTTP 401 on the sample session. -/
theorem executeWorkflow_nonsuccess_status_witness :
    FirstOfType NodeType.INPUT sampleState.nodes sampleInput ∧
    FirstOfType NodeType.LLM sampleState.nodes sampleModel ∧
    (executeWorkflow noRender fetch401 sampleState).1.error
      = "Failed to get response from OpenAI" ∧
    (executeWorkflow noRender fetch401 sampleState).1.errorType = "general" ∧
    (executeWorkflow noRender (fetchMalformed "Unexpected end of JSON input")
      sampleState).1.errorType = "general" :=
  have h := executeWorkflow_nonsuccess_status noRender fetch401 sampleState
    sampleInput sampleModel sampleState_input (by rfl) sampleState_model (by rfl)
    ⟨JsonResult.content JSValue.undefined, rfl⟩
  ⟨sampleState_input, sampleState_model, h.1, h.2.1,
    (h.2.2.2.2 (fetchMalformed "Unexpected end of JSON input")
      "Unexpected end of JSON input" rfl).2.1⟩

/-! ## What execution reads -/

/-- C10: two states whose first Input nodes have the same data and
whose first Model nodes have the same data pass or fail the presence checks
alike, issue the same requests and end with the same error message, tag and
alert flag, whatever their other nodes, their connections and their
connection-in-progress state are. -/
theorem executeWorkflow_reads_only_first_nodes (fmt : ℚ → String)
    (fetch : Request → FetchResult) (st₁ st₂ : State)
    (hI : firstData NodeType.INPUT st₁.nodes = firstData NodeType.INPUT st₂.nodes)
    (hL : firstData NodeType.LLM st₁.nodes = firstData NodeType.LLM st₂.nodes) :
    (InputPresent st₁ ↔ InputPresent st₂) ∧
    (CredentialPresent st₁ ↔ CredentialPresent st₂) ∧
    (executeWorkflow fmt fetch st₁).2 = (executeWorkflow fmt fetch st₂).2 ∧
    (executeWorkflow fmt fetch st₁).1.error = (executeWorkflow fmt fetch st₂).1.error ∧
    (executeWorkflow fmt fetch st₁).1.errorType
      = (executeWorkflow fmt fetch st₂).1.errorType ∧
    (executeWorkflow fmt fetch st₁).1.showAlert
      = (executeWorkflow fmt fetch st₂).1.showAlert := by
  have hIP : InputPresent st₁ ↔ InputPresent st₂ := by
    unfold InputPresent
    rw [present_iff_firstData, present_iff_firstData, hI]
  have hCP : CredentialPresent st₁ ↔ CredentialPresent st₂ := by
    unfold CredentialPresent
    rw [present_iff_firstData, present_iff_firstData, hL]
  refine ⟨hIP, hCP, ?_⟩
  by_cases hi : InputPresent st₁
  · by_cases hc : CredentialPresent st₁
    · obtain ⟨i₁, hfi₁, hq₁⟩ := hi
      obtain ⟨l₁, hfl₁, hk₁⟩ := hc
      obtain ⟨i₂, hfi₂, hd₂⟩ := (firstData_eq_some_iff _ _ i₁.data).1
        (hI ▸ (firstData_eq_some_iff _ _ i₁.data).2 ⟨i₁, hfi₁, rfl⟩)
      obtain ⟨l₂, hfl₂, he₂⟩ := (firstData_eq_some_iff _ _ l₁.data).1
        (hL ▸ (firstData_eq_some_iff _ _ l₁.data).2 ⟨l₁, hfl₁, rfl⟩)
      rw [executeWorkflow_checked fmt fetch st₁ i₁ l₁ hfi₁ hq₁ hfl₁ hk₁,
        executeWorkflow_checked fmt fetch st₂ i₂ l₂ hfi₂ (hd₂ ▸ hq₁) hfl₂ (he₂ ▸ hk₁),
        buildRequest_congr fmt hd₂ he₂]
      cases hf : fetch (buildRequest fmt i₁ l₁) with
      | rejects message => exact ⟨rfl, rfl, rfl, rfl⟩
      | response ok json =>
        cases ok with
        | false => exact ⟨rfl, rfl, rfl, rfl⟩
        | true =>
          cases json with
          | throws message => exact ⟨rfl, rfl, rfl, rfl⟩
          | content output => exact ⟨rfl, rfl, rfl, rfl⟩
    · rw [executeWorkflow_credential_missing fmt fetch st₁ hi hc,
        executeWorkflow_credential_missing fmt fetch st₂ (hIP.1 hi) (fun h => hc (hCP.2 h))]
      exact ⟨rfl, rfl, rfl, rfl⟩
  · rw [executeWorkflow_input_missing fmt fetch st₁ hi,
      executeWorkflow_input_missing fmt fetch st₂ (fun h => hi (hIP.2 h))]
    exact ⟨rfl, rfl, rfl, rfl⟩

/-- C10, on the sample session and the same session after a second Model
node was added and given another key and a connection was started: both runs
issue the same requests. -/
theorem executeWorkflow_reads_only_first_nodes_witness :
    (executeWorkflow noRender fetchFour sampleState).2
      = (executeWorkflow noRender fetchFour
          (runFrom noRender sampleState
            [Op.addNode 9 NodeType.LLM,
             Op.updateNodeData "llm-9" [("apiKey", JSValue.str "sk-other")],
             Op.startConnection "input-1", Op.endConnection "llm-9",
             Op.startConnection "llm-9"])).2 :=
  (executeWorkflow_reads_only_first_nodes noRender fetchFour sampleState
    (runFrom noRender sampleState
      [Op.addNode 9 NodeType.LLM,
       Op.updateNodeData "llm-9" [("apiKey", JSValue.str "sk-other")],
       Op.startConnection "input-1", Op.endConnection "llm-9",
       Op.startConnection "llm-9"])
    (by rfl) (by rfl)).2.2.1

/-! ## Node ids -/

theorem digitVal_digitChar (d : Nat) (h : d < 10) : digitVal (Nat.digitChar d) = d := by
  interval_cases d <;> rfl

theorem toDigitsCore_append (fuel : Nat) : ∀ (n : Nat) (ds : List Char),
    Nat.toDigitsCore 10 fuel n ds = Nat.toDigitsCore 10 fuel n [] ++ ds := by
  induction fuel with
  | zero => intro n ds; simp [Nat.toDigitsCore]
  | succ f ih =>
    intro n ds
    simp only [Nat.toDigitsCore]
    by_cases h : n / 10 = 0
    · simp [h]
    · simp only [h, if_false]
      rw [ih (n / 10) (Nat.digitChar (n % 10) :: ds), ih (n / 10) [Nat.digitChar (n % 10)]]
      simp

theorem decodeDigits_append_single (l : List Char) (c : Char) :
    decodeDigits (l ++ [c]) = 10 * decodeDigits l + digitVal c := by
  simp [decodeDigits, List.foldl_append]

theorem decodeDigits_toDigitsCore (fuel : Nat) : ∀ n : Nat, n < fuel →
    decodeDigits (Nat.toDigitsCore 10 fuel n []) = n := by
  induction fuel with
  | zero => intro n h; omega
  | succ f ih =>
    intro n hn
    simp only [Nat.toDigitsCore]
    by_cases h : n / 10 = 0
    · simp only [h, if_true]
      have hlt : n < 10 := by omega
      have hmod : n % 10 = n := Nat.mod_eq_of_lt hlt
      simp [decodeDigits, hmod, digitVal_digitChar n hlt]
    · simp only [h, if_false]
      rw [toDigitsCore_append, decodeDigits_append_single, ih (n / 10) (by omega),
        digitVal_digitChar _ (Nat.mod_lt _ (by decide))]
      omega

theorem repr_injective {a b : Nat} (h : Nat.repr a = Nat.repr b) : a = b := by
  have hd : Nat.toDigits 10 a = Nat.toDigits 10 b := by
    have := congrArg String.data h
    simpa [Nat.repr, List.asString] using this
  have ha := decodeDigits_toDigitsCore (a + 1) a (by omega)
  have hb := decodeDigits_toDigitsCore (b + 1) b (by omega)
  unfold Nat.toDigits at hd
  rw [hd] at ha
  omega

theorem newId_injective {t t' : NodeType} {n n' : Nat} (h : newId t n = newId t' n') :
    t = t' ∧ n = n' := by
  have hd := congrArg String.data h
  simp only [newId, String.data_append] at hd
  cases t <;> cases t' <;> simp [NodeType.toString] at hd <;>
    exact ⟨rfl, repr_injective (String.ext hd)⟩

theorem executeStart_nodes (fmt : ℚ → String) (st : State) :
    (executeStart fmt st).1.nodes = st.nodes := by
  simp only [executeStart]
  repeat' split
  all_goals rfl

theorem executeStart_pending_nodes (fmt : ℚ → String) (st : State) (p : Pending)
    (h : (executeStart fmt st).2 = some p) : p.nodes = st.nodes := by
  simp only [executeStart] at h
  repeat' split at h
  all_goals cases h <;> rfl

theorem executeWorkflow_eq_start_settle (fmt : ℚ → String) (fetch : Request → FetchResult)
    (st : State) :
    executeWorkflow fmt fetch st =
      match executeStart fmt st with
      | (st₁, none) => (st₁, [])
      | (st₁, some p) => (executeSettle p (fetch p.request) st₁, [p.request]) := by
  simp only [executeWorkflow, executeBody, executeStart]
  split_ifs with h₁ h₂
  · rfl
  · rfl
  · cases hi : st.nodes.find? (fun n => decide (n.type = NodeType.INPUT)) with
    | none => rfl
    | some i =>
      cases hl : st.nodes.find? (fun n => decide (n.type = NodeType.LLM)) with
      | none => rfl
      | some l =>
        simp only [executeSettle]
        cases hf : fetch (buildRequest fmt i l) with
        | rejects message => rfl
        | response ok json =>
          cases ok with
          | false => rfl
          | true =>
            cases json with
            | throws message => rfl
            | content output => rfl

theorem executeSettle_ids (p : Pending) (result : FetchResult) (st : State) :
    (executeSettle p result st).nodes.map Node.id = st.nodes.map Node.id ∨
    (executeSettle p result st).nodes.map Node.id = p.nodes.map Node.id := by
  cases result with
  | rejects message => exact Or.inl rfl
  | response ok json =>
    cases ok with
    | false => exact Or.inl rfl
    | true =>
      cases json with
      | throws message => exact Or.inl rfl
      | content output =>
        right
        simp only [executeSettle, Bool.not_true, Bool.false_eq_true, if_false, List.map_map]
        apply List.map_congr_left
        intro n _
        by_cases hn : n.type = NodeType.OUTPUT <;> simp [hn]

theorem step_ids (fmt : ℚ → String) (s : Session) (op : Op) :
    (step fmt s op).state.nodes.map Node.id
        = s.state.nodes.map Node.id ++ (addCalls [op]).map (fun c => newId c.1 c.2) ∨
    ∃ k result p, op = Op.settle k result ∧ s.pending[k]? = some p ∧
      (step fmt s op).state.nodes.map Node.id = p.nodes.map Node.id := by
  cases op with
  | addNode now type => left; simp [step, addNode, addCalls]
  | updateNodePosition nodeId newPosition =>
    left
    simp only [step, updateNodePosition, addCalls, List.map_nil, List.append_nil,
      List.map_map]
    apply List.map_congr_left
    intro n _
    by_cases hn : n.id = nodeId <;> simp [hn]
  | updateNodeData nodeId newData =>
    left
    simp only [step, updateNodeData, addCalls, List.map_nil, List.append_nil, List.map_map]
    apply List.map_congr_left
    intro n _
    by_cases hn : n.id = nodeId <;> simp [hn]
  | startConnection nodeId => left; simp [step, startConnection, addCalls]
  | endConnection nodeId => left; simp [step, endConnection, addCalls]
  | mouseMove clientX clientY =>
    left
    simp only [step, handleMouseMove, addCalls, List.map_nil, List.append_nil]
    split
    · split <;> rfl
    · rfl
  | closeAlert => left; simp [step, closeAlert, addCalls]
  | executeWorkflow =>
    left
    simp [step, addCalls, executeStart_nodes]
  | settle k result =>
    cases hp : s.pending[k]? with
    | none => left; simp [step, hp, addCalls]
    | some p =>
      rcases executeSettle_ids p result s.state with h | h
      · left; simp [step, hp, addCalls, h]
      · right; exact ⟨k, result, p, rfl, hp, by simp [step, hp, h]⟩

theorem step_pending (fmt : ℚ → String) (s : Session) (op : Op) (p : Pending)
    (hp : p ∈ (step fmt s op).pending) : p ∈ s.pending ∨ p.nodes = s.state.nodes := by
  cases op with
  | executeWorkflow =>
    simp only [step, List.mem_append, Option.mem_toList, Option.mem_def] at hp
    rcases hp with hp | hp
    · exact Or.inl hp
    · exact Or.inr (executeStart_pending_nodes fmt s.state p hp)
  | settle k result =>
    cases hk : s.pending[k]? with
    | none => simp only [step, hk] at hp; exact Or.inl hp
    | some q =>
      simp only [step, hk] at hp
      exact Or.inl ((List.eraseIdx_sublist _ _).subset hp)
  | _ => exact Or.inl hp

theorem addCalls_cons (op : Op) (ops : List Op) :
    addCalls (op :: ops) = addCalls [op] ++ addCalls ops := by
  cases op <;> simp [addCalls]

theorem step_ids_within (fmt : ℚ → String) (s : Session) (op : Op) (ids : List String)
    (hs : (s.state.nodes.map Node.id).Sublist ids)
    (hp : ∀ p ∈ s.pending, (p.nodes.map Node.id).Sublist ids) :
    ((step fmt s op).state.nodes.map Node.id).Sublist
        (ids ++ (addCalls [op]).map (fun c => newId c.1 c.2)) ∧
    ∀ p ∈ (step fmt s op).pending,
      (p.nodes.map Node.id).Sublist (ids ++ (addCalls [op]).map (fun c => newId c.1 c.2)) := by
  constructor
  · rcases step_ids fmt s op with h | ⟨k, result, p, -, hk, h⟩
    · rw [h]
      exact List.Sublist.append hs (List.Sublist.refl _)
    · rw [h]
      exact (hp p (List.getElem?_mem hk)).trans (List.sublist_append_left _ _)
  · intro p hmem
    rcases step_pending fmt s op p hmem with h | h
    · exact (hp p h).trans (List.sublist_append_left _ _)
    · rw [h]
      exact hs.trans (List.sublist_append_left _ _)

theorem sessionFrom_ids_within (fmt : ℚ → String) (ops : List Op) :
    ∀ (s : Session) (ids : List String),
      (s.state.nodes.map Node.id).Sublist ids →
      (∀ p ∈ s.pending, (p.nodes.map Node.id).Sublist ids) →
      ((sessionFrom fmt s ops).state.nodes.map Node.id).Sublist
          (ids ++ (addCalls ops).map (fun c => newId c.1 c.2)) ∧
      ∀ p ∈ (sessionFrom fmt s ops).pending,
        (p.nodes.map Node.id).Sublist
          (ids ++ (addCalls ops).map (fun c => newId c.1 c.2)) := by
  induction ops with
  | nil =>
    intro s ids hs hp
    simpa [sessionFrom, addCalls] using And.intro hs hp
  | cons op ops ih =>
    intro s ids hs hp
    obtain ⟨hs', hp'⟩ := step_ids_within fmt s op ids hs hp
    have h := ih (step fmt s op) _ hs' hp'
    rw [addCalls_cons op ops, List.map_append, ← List.append_assoc]
    simpa [sessionFrom] using h

theorem newId_nodup (calls : List (NodeType × Nat)) (h : calls.Nodup) :
    (calls.map (fun c => newId c.1 c.2)).Nodup := by
  refine List.Nodup.map ?_ h
  rintro ⟨t, n⟩ ⟨t', n'⟩ heq
  obtain ⟨ht, hn⟩ := newId_injective heq
  exact Prod.ext ht hn

/-- C4 as stated fails: two Input nodes added at the same clock reading get the
same id. -/
theorem same_clock_reading_gives_equal_ids :
    ¬ ((run noRender [Op.addNode 5 NodeType.INPUT, Op.addNode 5 NodeType.INPUT]).nodes.map
        Node.id).Nodup := by
  decide

/-- C4, amended: in every state reached from the empty canvas by a session in
which no two `addNode` calls have both the same type and the same clock
reading, no two nodes have the same id, and the same holds of every node list
that a waiting run of `executeWorkflow` has captured.  No operation rewrites
an id: after every event the ids are the ids before it, in the same order,
followed by the id of the node that was added if one was; or, when the
request of a waiting run settles with a content, they are the ids of the node
list which that run captured.  A waiting run captures the node list of the
state in which Run was clicked. -/
theorem node_ids_unique (fmt : ℚ → String) (ops : List Op) (h : (addCalls ops).Nodup) :
    ((run fmt ops).nodes.map Node.id).Nodup ∧
    (∀ p ∈ (sessionFrom fmt (Session.start State.init) ops).pending,
      (p.nodes.map Node.id).Nodup) ∧
    (∀ (s : Session) (op : Op),
      (step fmt s op).state.nodes.map Node.id
          = s.state.nodes.map Node.id ++ (addCalls [op]).map (fun c => newId c.1 c.2) ∨
      ∃ k result p, op = Op.settle k result ∧ s.pending[k]? = some p ∧
        (step fmt s op).state.nodes.map Node.id = p.nodes.map Node.id) ∧
    (∀ (s : Session) (op : Op), ∀ p ∈ (step fmt s op).pending,
      p ∈ s.pending ∨ p.nodes = s.state.nodes) := by
  have hwithin := sessionFrom_ids_within fmt ops (Session.start State.init) []
    (by simp [Session.start, State.init]) (by simp [Session.start])
  simp only [List.nil_append] at hwithin
  have hnodup := newId_nodup (addCalls ops) h
  refine ⟨?_, ?_, step_ids fmt, step_pending fmt⟩
  · exact List.Nodup.sublist hwithin.1 hnodup
  · intro p hp
    exact List.Nodup.sublist (hwithin.2 p hp) hnodup

/-- C4, amended, on the sample session followed by a click on Run, a fourth
node added while the request is under way, and the settling of the request:
the `addNode` calls have different clock readings and the nodes have
different ids. -/
theorem node_ids_unique_witness :
    (addCalls (sampleOps ++ [Op.executeWorkflow, Op.addNode 4 NodeType.OUTPUT,
      Op.settle 0 (FetchResult.response true (JsonResult.content (JSValue.str "4")))])).Nodup ∧
    ((run noRender (sampleOps ++ [Op.executeWorkflow, Op.addNode 4 NodeType.OUTPUT,
      Op.settle 0 (FetchResult.response true (JsonResult.content (JSValue.str "4")))])).nodes.map
        Node.id).Nodup :=
  ⟨by decide, (node_ids_unique noRender _ (by decide)).1⟩

/-- A node added while a request is under way is gone when the request settles
with a content: the handler writes back the node list it captured. -/
theorem settle_writes_back_captured_nodes :
    (run noRender (sampleOps ++ [Op.executeWorkflow, Op.addNode 4 NodeType.OUTPUT])).nodes.map
        Node.id = ["input-1", "llm-2", "output-3", "output-4"] ∧
    (run noRender (sampleOps ++ [Op.executeWorkflow, Op.addNode 4 NodeType.OUTPUT,
      Op.settle 0 (FetchResult.response true (JsonResult.content (JSValue.str "4")))])).nodes.map
        Node.id = ["input-1", "llm-2", "output-3"] := by
  constructor
  · rfl
  · rfl

/-! ## The request -/

theorem executeWorkflow_request_fields (fmt : ℚ → String) (fetch : Request → FetchResult)
    (st : State) (i l : Node)
    (hi : FirstOfType NodeType.INPUT st.nodes i) (hq : (i.data.get "query").truthy = true)
    (hl : FirstOfType NodeType.LLM st.nodes l) (hk : (l.data.get "apiKey").truthy = true) :
    ∃ request, (executeWorkflow fmt fetch st).2 = [request] ∧
      request.method = "POST" ∧
      request.headers = [("Content-Type", "application/json"),
        ("Authorization", "Bearer " ++ (l.data.get "apiKey").toTemplate fmt)] ∧
      request.body.messages = [{ role := "user", content := i.data.get "query" }] ∧
      (∀ v, l.data.get "apiBase" = v → v.truthy = true →
        request.url = v.toTemplate fmt ++ "/chat/completions") ∧
      ((l.data.get "apiBase").truthy = false →
        request.url = "https://api.openai.com/v1/chat/completions") ∧
      (∀ v, l.data.get "model" = v → v.truthy = true → request.body.model = v) ∧
      ((l.data.get "model").truthy = false →
        request.body.model = JSValue.str "gpt-3.5-turbo") ∧
      (∀ v, l.data.get "maxTokens" = v → v.truthy = true → request.body.max_tokens = v) ∧
      ((l.data.get "maxTokens").truthy = false → request.body.max_tokens = JSValue.num 2000) ∧
      (∀ v, l.data.get "temperature" = v → v.truthy = true →
        request.body.temperature = v) ∧
      ((l.data.get "temperature").truthy = false →
        request.body.temperature = JSValue.num 0.5) := by
  refine ⟨buildRequest fmt i l, ?_, rfl, rfl, rfl, ?_, ?_, ?_, ?_, ?_, ?_, ?_, ?_⟩
  · rw [executeWorkflow_checked fmt fetch st i l hi hq hl hk]
  · rintro v rfl hv; simp [buildRequest, JSValue.or, hv]
  · intro hv; simp [buildRequest, JSValue.or, hv, JSValue.toTemplate]
  · rintro v rfl hv; simp [buildRequest, JSValue.or, hv]
  · intro hv; simp [buildRequest, JSValue.or, hv]
  · rintro v rfl hv; simp [buildRequest, JSValue.or, hv]
  · intro hv; simp [buildRequest, JSValue.or, hv]
  · rintro v rfl hv; simp [buildRequest, JSValue.or, hv]
  · intro hv; simp [buildRequest, JSValue.or, hv]

/-! ## Two defects of the execution step -/

/-- C1, where the code departs from it: on a canvas with two Output nodes, a
successful run with content `4` writes `4` into the `output` field of both
Output nodes, not only of the first. -/
theorem executeWorkflow_writes_every_output_node :
    (executeWorkflow noRender fetchFour twoOutputsState).1.nodes.map
        (fun n => (n.id, n.type, Data.lookup n.data "output"))
      = [("input-1", NodeType.INPUT, none), ("llm-2", NodeType.LLM, none),
         ("output-3", NodeType.OUTPUT, some (JSValue.str "4")),
         ("output-4", NodeType.OUTPUT, some (JSValue.str "4"))] ∧
    twoOutputsState.nodes.map (fun n => (n.id, n.type, Data.lookup n.data "output"))
      = [("input-1", NodeType.INPUT, none), ("llm-2", NodeType.LLM, none),
         ("output-3", NodeType.OUTPUT, none), ("output-4", NodeType.OUTPUT, none)] := by
  constructor
  · rfl
  · rfl

/-- C9, where the code departs from it: with the temperature field of the
Model node set to `0`, a value of the range [0, 2], the request carries the
default temperature `0.5`. -/
theorem zero_temperature_sent_as_default (fetch : Request → FetchResult) :
    FirstOfType NodeType.LLM zeroTemperatureState.nodes zeroTemperatureModel ∧
    zeroTemperatureModel.data.get "temperature" = JSValue.num 0 ∧
    (executeWorkflow noRender fetch zeroTemperatureState).2.map
        (fun request => request.body.temperature) = [JSValue.num 0.5] := by
  have hnodes : zeroTemperatureState.nodes
      = [sampleInput, zeroTemperatureModel, sampleOutput] := by rfl
  have hfi : FirstOfType NodeType.INPUT zeroTemperatureState.nodes sampleInput :=
    ⟨[], [zeroTemperatureModel, sampleOutput], hnodes, rfl, by simp⟩
  have hfl : FirstOfType NodeType.LLM zeroTemperatureState.nodes zeroTemperatureModel :=
    ⟨[sampleInput], [sampleOutput], hnodes, rfl, by simp [sampleInput]⟩
  refine ⟨hfl, by rfl, ?_⟩
  rw [executeWorkflow_checked noRender fetch zeroTemperatureState sampleInput
    zeroTemperatureModel hfi (by rfl) hfl (by rfl)]
  simp [buildRequest, zeroTemperatureModel, Data.get, Data.lookup, JSValue.or,
    JSValue.truthy]

end WorkflowBuilder
